import Mathlib

/-!
Shallow embedding of the `stabilkon` quad-mesh builder.

Conventions of the embedding:
* Rust `f32` values are modelled as exact rationals (`ℚ`).  All inputs used in
  concrete theorems below are dyadic rationals on which the corresponding `f32`
  operations of the source are exact.
* Rust `u32` values are modelled as `Nat`; where the source performs unchecked
  `u32` arithmetic that can overflow, the embedding reduces modulo `2 ^ 32`
  (release-profile wrapping semantics), and this is noted at the definition.
* Fallible constructors return `Except Error _`, mirroring the
  `Result<T, Error>` of the source.
* `mint::Vector2<f32>` / `mint::Vector4<f32>` become the `Vec2` / `Vec4`
  structures below; `Color` and `Rectangle` are aliases of `Vec4` exactly as in
  `common_types.rs`.
-/

namespace Stabilkon

/-- The modulus of `u32` arithmetic. -/
def U32 : Nat := 2 ^ 32

/-- `mint::Vector2<f32>` with exact rational components. -/
structure Vec2 where
  x : ℚ
  y : ℚ
deriving DecidableEq, Repr

/-- `mint::Vector4<f32>` with exact rational components. -/
structure Vec4 where
  x : ℚ
  y : ℚ
  z : ℚ
  w : ℚ
deriving DecidableEq, Repr

/-- `common_types.rs`: `pub type Color = Vec4;` -/
abbrev Color := Vec4

/-- `common_types.rs`: `pub type Rectangle = Vec4;` (x, y, width `z`, height `w`). -/
abbrev Rectangle := Vec4

/-- `common_types.rs`: `VEC2_ZERO`. -/
def VEC2_ZERO : Vec2 := ⟨0, 0⟩

/-- `common_types.rs`: the canonical vertex record `PosUvColor`. -/
structure PosUvColor where
  position : Vec2
  uv : Vec2
  color : Color
deriving DecidableEq, Repr

/-- The all-zero vertex produced by `MaybeUninit::zeroed()` for `PosUvColor`
(all `f32` fields are +0.0). -/
def zeroVertex : PosUvColor := ⟨⟨0, 0⟩, ⟨0, 0⟩, ⟨0, 0, 0, 0⟩⟩

/-- `draw_params.rs`: the `UvFlip` enum. -/
inductive UvFlip where
  | None
  | Horizontal
  | Vertical
  | Both
deriving DecidableEq, Repr

/-- `draw_params.rs`: `get_texel_coord(v, tex_dim, use_half_pixel_offset)`. -/
def get_texel_coord (v tex_dim : ℚ) (use_half_pixel_offset : Bool) : ℚ :=
  if use_half_pixel_offset then (v + 1/2) / tex_dim else v / tex_dim

/-- `draw_params.rs`: `flip_uvs(flip, u, v, u2, v2)`; the two `mem::swap`s are
modelled by conditional component exchanges, returning the quadruple. -/
def flip_uvs (flip : UvFlip) (u v u2 v2 : ℚ) : ℚ × ℚ × ℚ × ℚ :=
  let uu : ℚ × ℚ :=
    if flip = UvFlip.Horizontal ∨ flip = UvFlip.Both then (u2, u) else (u, u2)
  let vv : ℚ × ℚ :=
    if flip = UvFlip.Vertical ∨ flip = UvFlip.Both then (v2, v) else (v, v2)
  (uu.1, vv.1, uu.2, vv.2)

/-- `draw_params.rs`: `calculate_uvs_with_source`; the two out-parameters `uv`
and `uv2` become the returned pair (top-left UV, bottom-right UV). -/
def calculate_uvs_with_source (texture_size : Vec2) (use_half_pixel_offset : Bool)
    (source : Rectangle) (flip : UvFlip) : Vec2 × Vec2 :=
  if texture_size.x > 0 ∧ texture_size.y > 0 then
    let bottom_right : ℚ × ℚ :=
      if use_half_pixel_offset then
        (source.y + source.w - 1, source.x + source.z - 1)
      else
        (source.y + source.w, source.x + source.z)
    let u := get_texel_coord source.x texture_size.x use_half_pixel_offset
    let v := get_texel_coord bottom_right.1 texture_size.y use_half_pixel_offset
    let u2 := get_texel_coord bottom_right.2 texture_size.x use_half_pixel_offset
    let v2 := get_texel_coord source.y texture_size.y use_half_pixel_offset
    let flipped := flip_uvs flip u v u2 v2
    (⟨flipped.1, flipped.2.1⟩, ⟨flipped.2.2.1, flipped.2.2.2⟩)
  else
    (⟨0, 1⟩, ⟨1, 0⟩)

/-- `draw_params.rs`: `make_vertices` — combines the four corner positions and
UVs with the uniform color into four `PosUvColor` vertices. -/
def make_vertices (color : Color) (c1_position c2_position c3_position c4_position
    c1_uv c2_uv c3_uv c4_uv : Vec2) :
    PosUvColor × PosUvColor × PosUvColor × PosUvColor :=
  (⟨c1_position, c1_uv, color⟩, ⟨c2_position, c2_uv, color⟩,
   ⟨c3_position, c3_uv, color⟩, ⟨c4_position, c4_uv, color⟩)

/-- `draw_params.rs`: the `QuadDrawParams` trait, modelled as a record of its
three primitive methods.  `corner_points` and `uvs` return their out-parameters
(`c1..c4`, respectively `(uv, uv2)`). -/
structure QuadDrawParams where
  get_color : Color
  corner_points : Vec2 → Vec2 × Vec2 × Vec2 × Vec2
  uvs : Vec2 → Bool → Vec2 × Vec2

/-- `draw_params.rs`: the provided trait method `QuadDrawParams::set_vertices`
(`PosColorSource` overrides it with a textually identical body).  Writes the
4-vertex (indexed) or 6-vertex (triangle-list) expansion of the quad at
`vertex_offset`.  In the model an out-of-range `List.set` is a no-op, whereas
the source's `vertices[i] = v` would panic; all in-range behaviour coincides. -/
def QuadDrawParams.set_vertices (p : QuadDrawParams) (texture_size : Vec2)
    (use_half_pixel_offset use_indices : Bool) (vertex_offset : Nat)
    (vertices : List PosUvColor) : List PosUvColor :=
  let cp := p.corner_points texture_size
  let c1_position := cp.1
  let c2_position := cp.2.1
  let c3_position := cp.2.2.1
  let c4_position := cp.2.2.2
  let uv := p.uvs texture_size use_half_pixel_offset
  let c1_uv := uv.1
  let c3_uv := uv.2
  let c2_uv : Vec2 := ⟨c1_uv.x, c3_uv.y⟩
  let c4_uv : Vec2 := ⟨c3_uv.x, c1_uv.y⟩
  let cs := make_vertices p.get_color c1_position c2_position c3_position c4_position
    c1_uv c2_uv c3_uv c4_uv
  let c1 := cs.1
  let c2 := cs.2.1
  let c3 := cs.2.2.1
  let c4 := cs.2.2.2
  if use_indices then
    ((((vertices.set vertex_offset c1).set (vertex_offset + 1) c2).set
        (vertex_offset + 2) c3).set (vertex_offset + 3) c4)
  else
    ((((((vertices.set vertex_offset c1).set (vertex_offset + 1) c2).set
        (vertex_offset + 2) c3).set (vertex_offset + 3) c3).set
        (vertex_offset + 4) c4).set (vertex_offset + 5) c1)

/-- `draw_params.rs`: the `PosColorSource` params struct. -/
structure PosColorSource where
  position : Vec2
  color : Color
  source : Rectangle
  flip : UvFlip
deriving DecidableEq, Repr

/-- `draw_params.rs`: `PosColorSource::corner_points` — width/height come from
the source rectangle when positive, else from the texture size. -/
def PosColorSource.corner_points (p : PosColorSource) (texture_size : Vec2) :
    Vec2 × Vec2 × Vec2 × Vec2 :=
  let source_width := p.source.z
  let source_or_texture_width := if source_width > 0 then source_width else texture_size.x
  let source_height := p.source.w
  let source_or_texture_height := if source_height > 0 then source_height else texture_size.y
  let f2 : Vec2 := ⟨p.position.x + source_or_texture_width,
                    p.position.y + source_or_texture_height⟩
  (⟨p.position.x, p.position.y⟩, ⟨p.position.x, f2.y⟩, ⟨f2.x, f2.y⟩, ⟨f2.x, p.position.y⟩)

/-- Packages a `PosColorSource` as a `QuadDrawParams` trait object. -/
def PosColorSource.toQuadDrawParams (p : PosColorSource) : QuadDrawParams :=
  { get_color := p.color
    corner_points := p.corner_points
    uvs := fun texture_size use_half_pixel_offset =>
      calculate_uvs_with_source texture_size use_half_pixel_offset p.source p.flip }

/-- `draw_params.rs`: the `PosColorSizeSource` params struct. -/
structure PosColorSizeSource where
  position : Vec2
  color : Color
  size : Vec2
  source : Rectangle
  flip : UvFlip
deriving DecidableEq, Repr

/-- `draw_params.rs`: `PosColorSizeSource::corner_points` — width/height come
from the explicit `size`, the texture size is ignored. -/
def PosColorSizeSource.corner_points (p : PosColorSizeSource) (_texture_size : Vec2) :
    Vec2 × Vec2 × Vec2 × Vec2 :=
  let f2 : Vec2 := ⟨p.position.x + p.size.x, p.position.y + p.size.y⟩
  (⟨p.position.x, p.position.y⟩, ⟨p.position.x, f2.y⟩, ⟨f2.x, f2.y⟩, ⟨f2.x, p.position.y⟩)

/-- Packages a `PosColorSizeSource` as a `QuadDrawParams` trait object. -/
def PosColorSizeSource.toQuadDrawParams (p : PosColorSizeSource) : QuadDrawParams :=
  { get_color := p.color
    corner_points := p.corner_points
    uvs := fun texture_size use_half_pixel_offset =>
      calculate_uvs_with_source texture_size use_half_pixel_offset p.source p.flip }

/-- `draw_params.rs`: the `DetailedParams` params struct.  `rotation` is the
angle in radians, kept as an exact rational in the model. -/
structure DetailedParams where
  position : Vec2
  color : Color
  origin : Vec2
  size : Vec2
  scale : Vec2
  rotation : ℚ
  source : Rectangle
  flip : UvFlip
deriving DecidableEq, Repr

/-- `DetailedParams::corner_points`, lines 464-489: the origin-relative extents
`f`, `f2` after the conditional scale (the source's `f32` literal `0.001` is
modelled as `1/1000`), and the four local corner points `p1..p4`. -/
def DetailedParams.local_corners (p : DetailedParams) : Vec2 × Vec2 × Vec2 × Vec2 :=
  let f : Vec2 := ⟨-p.origin.x, -p.origin.y⟩
  let f2 : Vec2 := ⟨p.size.x - p.origin.x, p.size.y - p.origin.y⟩
  let fs : Vec2 × Vec2 :=
    if |p.scale.x - 1| > 1/1000 ∨ |p.scale.y - 1| > 1/1000 then
      (⟨f.x * p.scale.x, f.y * p.scale.y⟩, ⟨f2.x * p.scale.x, f2.y * p.scale.y⟩)
    else
      (f, f2)
  (fs.1, ⟨fs.1.x, fs.2.y⟩, ⟨fs.2.x, fs.2.y⟩, ⟨fs.2.x, fs.1.y⟩)

/-- `draw_params.rs`: `DetailedParams::corner_points`.  The source evaluates
`self.rotation.cos()` and `self.rotation.sin()`; since the embedding uses exact
rationals, those two trigonometric results are supplied as the oracle inputs
`cosr` and `sinr`.  `sin.mul_add(a, b)` is the fused `sinr * a + b`, exact
here.  The fourth rotated corner is reconstructed from the first three with
the source's own associations (`r1.x + (r3.x - r2.x)` and
`r3.y - (r2.y - r1.y)`), and all four corners are then translated by
`position + origin`.  Beware that this exact-rational model collapses
association differences that `f32` rounding can distinguish; the binary32
refinement `DetailedParams.corner_points_f32` below keeps them apart. -/
def DetailedParams.corner_points (p : DetailedParams) (cosr sinr : ℚ)
    (_texture_size : Vec2) : Vec2 × Vec2 × Vec2 × Vec2 :=
  let world_origin : Vec2 := ⟨p.position.x + p.origin.x, p.position.y + p.origin.y⟩
  let lc := p.local_corners
  let p1 := lc.1
  let p2 := lc.2.1
  let p3 := lc.2.2.1
  let p4 := lc.2.2.2
  let rot : Vec2 × Vec2 × Vec2 × Vec2 :=
    if p.rotation = 0 then
      (p1, p2, p3, p4)
    else
      let r1 : Vec2 := ⟨cosr * p1.x - sinr * p1.y, sinr * p1.x + cosr * p1.y⟩
      let r2 : Vec2 := ⟨cosr * p2.x - sinr * p2.y, sinr * p2.x + cosr * p2.y⟩
      let r3 : Vec2 := ⟨cosr * p3.x - sinr * p3.y, sinr * p3.x + cosr * p3.y⟩
      let r4 : Vec2 := ⟨r1.x + (r3.x - r2.x), r3.y - (r2.y - r1.y)⟩
      (r1, r2, r3, r4)
  (⟨rot.1.x + world_origin.x, rot.1.y + world_origin.y⟩,
   ⟨rot.2.1.x + world_origin.x, rot.2.1.y + world_origin.y⟩,
   ⟨rot.2.2.1.x + world_origin.x, rot.2.2.1.y + world_origin.y⟩,
   ⟨rot.2.2.2.x + world_origin.x, rot.2.2.2.y + world_origin.y⟩)

/-- Packages a `DetailedParams` as a `QuadDrawParams` trait object; `cosr` and
`sinr` stand for `rotation.cos()` / `rotation.sin()` (see
`DetailedParams.corner_points`). -/
def DetailedParams.toQuadDrawParams (p : DetailedParams) (cosr sinr : ℚ) : QuadDrawParams :=
  { get_color := p.color
    corner_points := p.corner_points cosr sinr
    uvs := fun texture_size use_half_pixel_offset =>
      calculate_uvs_with_source texture_size use_half_pixel_offset p.source p.flip }

/-- The floor of the base-2 logarithm of a positive rational, used to place a
value in its binary32 binade. -/
def log2Floor (q : ℚ) : Int :=
  if 1 ≤ q then (Nat.log 2 ⌊q⌋.toNat : Int)
  else -(Nat.clog 2 ⌈q⁻¹⌉.toNat : Int)

/-- Round-to-nearest, ties-to-even for IEEE-754 binary32 (`f32`), on the exact
rational value of an operation: the significand `m = |q| / 2 ^ (e - 23)` (in
`[2^23, 2^24)`) is rounded to the nearest integer, ties going to the even
candidate.  Overflow to infinity and subnormal underflow are not modelled; all
values this development applies it to lie well inside the normal range. -/
def roundF32 (q : ℚ) : ℚ :=
  if q = 0 then 0
  else
    let sgn : ℚ := if 0 < q then 1 else -1
    let a : ℚ := |q|
    let e : Int := log2Floor a - 23
    let m : ℚ := a / 2 ^ e
    let lo : Int := ⌊m⌋
    let mte : Int :=
      if m - lo < 1/2 then lo
      else if 1/2 < m - lo then lo + 1
      else if lo % 2 = 0 then lo else lo + 1
    sgn * (mte : ℚ) * 2 ^ e

/-- The `f32` literal `0.001` of `DetailedParams::corner_points` (line 478):
the binary32 value nearest to 1/1000. -/
def F32_0001 : ℚ := roundF32 (1/1000)

/-- `DetailedParams::corner_points` lines 464-489 under binary32 semantics:
every `f32` addition, subtraction and multiplication result is rounded with
`roundF32` (negation is exact).  The field values of `p` and the threshold are
taken to be `f32` values already.  This refines the exact-rational
`DetailedParams.local_corners` at the rounding steps. -/
def DetailedParams.local_corners_f32 (p : DetailedParams) : Vec2 × Vec2 × Vec2 × Vec2 :=
  let f : Vec2 := ⟨-p.origin.x, -p.origin.y⟩
  let f2 : Vec2 := ⟨roundF32 (p.size.x - p.origin.x), roundF32 (p.size.y - p.origin.y)⟩
  let fs : Vec2 × Vec2 :=
    if |roundF32 (p.scale.x - 1)| > F32_0001 ∨ |roundF32 (p.scale.y - 1)| > F32_0001 then
      (⟨roundF32 (f.x * p.scale.x), roundF32 (f.y * p.scale.y)⟩,
       ⟨roundF32 (f2.x * p.scale.x), roundF32 (f2.y * p.scale.y)⟩)
    else
      (f, f2)
  (fs.1, ⟨fs.1.x, fs.2.y⟩, ⟨fs.2.x, fs.2.y⟩, ⟨fs.2.x, fs.1.y⟩)

/-- The rotated corners of `DetailedParams::corner_points` (lines 491-518,
before the translation by `position + origin`) under binary32 semantics:
`cos * p.x - sin * p.y` is two rounded multiplications and a rounded
subtraction, `sin.mul_add(p.x, cos * p.y)` is a rounded multiplication
followed by a fused multiply-add (one rounding for the whole `sin * p.x + _`),
and the fourth corner is the source's reconstruction
`(r1.x + (r3.x - r2.x), r3.y - (r2.y - r1.y))` with each operation rounded.
`cosr` / `sinr` are the `f32` values of `rotation.cos()` / `rotation.sin()`. -/
def DetailedParams.rotated_corners_f32 (p : DetailedParams) (cosr sinr : ℚ) :
    Vec2 × Vec2 × Vec2 × Vec2 :=
  let lc := p.local_corners_f32
  let p1 := lc.1
  let p2 := lc.2.1
  let p3 := lc.2.2.1
  let p4 := lc.2.2.2
  if p.rotation = 0 then
    (p1, p2, p3, p4)
  else
    let r1 : Vec2 := ⟨roundF32 (roundF32 (cosr * p1.x) - roundF32 (sinr * p1.y)),
                      roundF32 (sinr * p1.x + roundF32 (cosr * p1.y))⟩
    let r2 : Vec2 := ⟨roundF32 (roundF32 (cosr * p2.x) - roundF32 (sinr * p2.y)),
                      roundF32 (sinr * p2.x + roundF32 (cosr * p2.y))⟩
    let r3 : Vec2 := ⟨roundF32 (roundF32 (cosr * p3.x) - roundF32 (sinr * p3.y)),
                      roundF32 (sinr * p3.x + roundF32 (cosr * p3.y))⟩
    let r4 : Vec2 := ⟨roundF32 (r1.x + roundF32 (r3.x - r2.x)),
                      roundF32 (r3.y - roundF32 (r2.y - r1.y))⟩
    (r1, r2, r3, r4)

/-- `DetailedParams::corner_points` under binary32 semantics: the rotated (or
fast-path) corners translated by `world_origin = position + origin`, each
addition rounded. -/
def DetailedParams.corner_points_f32 (p : DetailedParams) (cosr sinr : ℚ)
    (_texture_size : Vec2) : Vec2 × Vec2 × Vec2 × Vec2 :=
  let world_origin : Vec2 := ⟨roundF32 (p.position.x + p.origin.x),
                              roundF32 (p.position.y + p.origin.y)⟩
  let rot := p.rotated_corners_f32 cosr sinr
  (⟨roundF32 (rot.1.x + world_origin.x), roundF32 (rot.1.y + world_origin.y)⟩,
   ⟨roundF32 (rot.2.1.x + world_origin.x), roundF32 (rot.2.1.y + world_origin.y)⟩,
   ⟨roundF32 (rot.2.2.1.x + world_origin.x), roundF32 (rot.2.2.1.y + world_origin.y)⟩,
   ⟨roundF32 (rot.2.2.2.x + world_origin.x), roundF32 (rot.2.2.2.y + world_origin.y)⟩)

/-- A `DetailedParams` value on which the binary32 parallelogram closure of
`DetailedParams::corner_points` differs from `c1 + (c3 - c2)`: position
`(0,0)`, origin `(0,-1)`, size `(-2^43, 2^25)`, unit scale, rotation `2^-20`
radians (an exact `f32` value with `cos` rounding to `1` and `sin` rounding to
`2^-20`), source `(0,0,32,32)`, no flip. -/
def detailedF32Demo : DetailedParams :=
  ⟨⟨0, 0⟩, ⟨1, 1, 1, 1⟩, ⟨0, -1⟩, ⟨-8796093022208, 33554432⟩, ⟨1, 1⟩, 1/1048576,
   ⟨0, 0, 32, 32⟩, UvFlip.None⟩

/-- `lib.rs`: the `Error` enum (backtrace payloads omitted). -/
inductive Error where
  | QuadCountIsTooLarge
  | InvalidTextureSize (size : Vec2)
  | VertexBufferIsTooLarge (length : Nat)
deriving DecidableEq, Repr

/-- The flat index list produced by the fill loop of `generate_quad_indices`
(lines 492-504): quad number `i` (with `index_value = 4 * i`) occupies
positions `6*i .. 6*i+6` with the pattern `[b, b+1, b+2, b+2, b+3, b]`.
`quadIndicesFrom i n` is the part of the list written for quads `i, …, i+n-1`;
the whole loop output is `quadIndicesFrom 0 quad_count`. -/
def quadIndicesFrom : Nat → Nat → List Nat
  | _, 0 => []
  | i, n + 1 =>
      4 * i :: (4 * i + 1) :: (4 * i + 2) :: (4 * i + 2) :: (4 * i + 3) :: 4 * i ::
        quadIndicesFrom (i + 1) n

/-- `lib.rs`: `generate_quad_indices(quad_count)`.  `quad_count.checked_mul(6)`
is `None` exactly when the product exceeds `u32::MAX`, which produces
`Error::QuadCountIsTooLarge`; otherwise the loop fills the pattern modelled by
`quadIndicesFrom` (all stored values are `< 4 * quad_count < 2 ^ 32`, so the
`u32` stores never wrap). -/
def generate_quad_indices (quad_count : Nat) : Except Error (List Nat) :=
  if quad_count * 6 < U32 then
    Except.ok (quadIndicesFrom 0 quad_count)
  else
    Except.error Error.QuadCountIsTooLarge

/-- `lib.rs`: `vertices_per_quad(use_indices)`. -/
def vertices_per_quad (use_indices : Bool) : Nat :=
  if use_indices then 4 else 6

/-- `lib.rs`: `total_vertices_in_quads(quad_count, use_indices)` —
`checked_mul` fails when the product exceeds `u32::MAX`. -/
def total_vertices_in_quads (quad_count : Nat) (use_indices : Bool) : Except Error Nat :=
  if quad_count * vertices_per_quad use_indices < U32 then
    Except.ok (quad_count * vertices_per_quad use_indices)
  else
    Except.error Error.QuadCountIsTooLarge

/-- `lib.rs`: the `MeshFromQuads<TVertex>` builder, instantiated at the
canonical vertex type `PosUvColor` (for which `From<PosUvColor>` is the
identity). -/
structure MeshFromQuads where
  texture_size : Vec2
  use_half_pixel_offset : Bool
  indices : Option (List Nat)
  vertices : List PosUvColor
  quad_limit : Nat
  use_indices : Bool
  vertices_per_quad : Nat
  max_vertices : Nat
deriving DecidableEq, Repr

/-- `lib.rs`: `MeshFromQuads::create` (lines 314-347): texture-size
validation, optional eager index generation, overflow-checked vertex count and
a zero-initialised vertex buffer. -/
def MeshFromQuads.create (texture_size : Vec2) (use_half_pixel_offset : Bool)
    (quad_limit : Nat) (use_indices : Bool) : Except Error MeshFromQuads :=
  if texture_size.x ≥ 1 ∧ texture_size.y ≥ 1 then
    match (if use_indices then Except.map some (generate_quad_indices quad_limit)
           else Except.ok Option.none) with
    | Except.error e => Except.error e
    | Except.ok indices =>
      match total_vertices_in_quads quad_limit use_indices with
      | Except.error e => Except.error e
      | Except.ok max_vertices =>
        Except.ok
          { texture_size := texture_size
            use_half_pixel_offset := use_half_pixel_offset
            indices := indices
            vertices := List.replicate max_vertices zeroVertex
            quad_limit := quad_limit
            use_indices := use_indices
            vertices_per_quad := Stabilkon.vertices_per_quad use_indices
            max_vertices := max_vertices }
  else
    Except.error (Error.InvalidTextureSize texture_size)

/-- `lib.rs`: `MeshFromQuads::new`. -/
def MeshFromQuads.new (texture_size : Vec2) (use_half_pixel_offset : Bool)
    (quad_limit : Nat) : Except Error MeshFromQuads :=
  MeshFromQuads.create texture_size use_half_pixel_offset quad_limit true

/-- `lib.rs`: `MeshFromQuads::new_without_indices`. -/
def MeshFromQuads.new_without_indices (texture_size : Vec2) (use_half_pixel_offset : Bool)
    (quad_limit : Nat) : Except Error MeshFromQuads :=
  MeshFromQuads.create texture_size use_half_pixel_offset quad_limit false

/-- `lib.rs`: `MeshFromQuads::from_texture_vertices_indices` (lines 278-312):
validates the texture size, requires the vertex count to fit in `u32`, and
derives `quad_limit = vertices.len() / vertices_per_quad` by integer
division. -/
def MeshFromQuads.from_texture_vertices_indices (texture_size : Vec2)
    (use_half_pixel_offset : Bool) (vertices : List PosUvColor)
    (indices : Option (List Nat)) : Except Error MeshFromQuads :=
  if texture_size.x ≥ 1 ∧ texture_size.y ≥ 1 then
    if vertices.length < U32 then
      let use_indices := indices.isSome
      Except.ok
        { texture_size := texture_size
          use_half_pixel_offset := use_half_pixel_offset
          indices := indices
          vertices := vertices
          quad_limit := vertices.length / Stabilkon.vertices_per_quad use_indices
          use_indices := use_indices
          vertices_per_quad := Stabilkon.vertices_per_quad use_indices
          max_vertices := vertices.length }
    else
      Except.error (Error.VertexBufferIsTooLarge vertices.length)
  else
    Except.error (Error.InvalidTextureSize texture_size)

/-- `lib.rs`: `MeshFromQuads::set` (lines 410-425).  `quad_index` and
`vertices_per_quad` are `u32`, so `quad_index * vertices_per_quad` and the
subsequent `+ vertices_per_quad` are performed modulo `2 ^ 32`
(release-profile wrapping; a debug build would panic on overflow instead). -/
def MeshFromQuads.set (b : MeshFromQuads) (quad_index : Nat) (draw_params : QuadDrawParams) :
    Bool × MeshFromQuads :=
  let vpq := b.vertices_per_quad
  let target_offset := quad_index * vpq % U32
  if (target_offset + vpq) % U32 ≤ b.max_vertices then
    (true,
     { b with
        vertices := draw_params.set_vertices b.texture_size b.use_half_pixel_offset
          b.use_indices target_offset b.vertices })
  else
    (false, b)

/-- `lib.rs`: `MeshFromQuads::clear` — overwrites every slot with the zeroed
vertex, touching nothing else. -/
def MeshFromQuads.clear (b : MeshFromQuads) : MeshFromQuads :=
  { b with vertices := b.vertices.map fun _ => zeroVertex }

/-- A mutation step on a builder: one `set` call (with an arbitrary
`QuadDrawParams` implementation) or one `clear` call. -/
inductive Op where
  | set (quad_index : Nat) (draw_params : QuadDrawParams)
  | clear

/-- Runs a sequence of `set` / `clear` operations left to right. -/
def applyOps (b : MeshFromQuads) : List Op → MeshFromQuads
  | [] => b
  | Op.set quad_index draw_params :: rest => applyOps (b.set quad_index draw_params).2 rest
  | Op.clear :: rest => applyOps b.clear rest

/-- Errors of the legacy `MeshBuilder` (`src/lib.rs` of the pre-generic
crate); all are `TetraError::PlatformError` values there, distinguished here
by their message. -/
inductive LegacyError where
  | InvalidTextureSize
  | VertexBufferTooLarge
  | QuadCountIsTooLarge
deriving DecidableEq, Repr

/-- The legacy `MeshBuilder` state (`src/lib.rs`), minus the opaque `Texture`
handle; tetra's `Vertex` has the same `{position, uv, color}` shape as
`PosUvColor`. -/
structure LegacyMeshBuilder where
  texture_size : Vec2
  indices : Option (List Nat)
  vertices : List PosUvColor
  quad_limit : Nat
  use_indices : Bool
  vertices_per_quad : Nat
  max_vertices : Nat
deriving DecidableEq, Repr

/-- `size_of::<tetra::graphics::mesh::Vertex>()`: eight `f32` fields
(position, uv, color) = 32 bytes. -/
def LEGACY_VERTEX_SIZE_BYTES : Nat := 32

/-- Legacy `src/lib.rs`: `MAX_VERTEX_BUFFER_SIZE_MBYTES = 512.0`. -/
def MAX_VERTEX_BUFFER_SIZE_MBYTES : ℚ := 512

/-- Legacy `src/lib.rs`: `MeshBuilder::create(texture, quad_limit,
use_indices)` (lines 149-195), with the texture handle replaced by its integer
pixel dimensions.  `desired_mbytes` is computed here in exact rational
arithmetic; the source computes it in `f64` and casts to `f32`, which differs
from the exact value only within half an `f32` ulp of the 512 MB boundary
(`quad_limit = 2^24 + 1`), far from every input used below. -/
def legacy_create (texture_width texture_height : Int) (quad_limit : Nat)
    (use_indices : Bool) : Except LegacyError LegacyMeshBuilder :=
  if texture_width < 1 ∨ texture_height < 1 then
    Except.error LegacyError.InvalidTextureSize
  else if ((quad_limit * LEGACY_VERTEX_SIZE_BYTES : ℚ) / (1024 * 1024)) >
      MAX_VERTEX_BUFFER_SIZE_MBYTES then
    Except.error LegacyError.VertexBufferTooLarge
  else
    match (if use_indices then Except.map some (generate_quad_indices quad_limit)
           else Except.ok Option.none) with
    | Except.error _ => Except.error LegacyError.QuadCountIsTooLarge
    | Except.ok indices =>
      match total_vertices_in_quads quad_limit use_indices with
      | Except.error _ => Except.error LegacyError.QuadCountIsTooLarge
      | Except.ok max_vertices =>
        Except.ok
          { texture_size := ⟨(texture_width : ℚ), (texture_height : ℚ)⟩
            indices := indices
            vertices := List.replicate max_vertices zeroVertex
            quad_limit := quad_limit
            use_indices := use_indices
            vertices_per_quad := Stabilkon.vertices_per_quad use_indices
            max_vertices := max_vertices }

/-! ## Supporting lemmas -/

theorem quadIndicesFrom_length (n : Nat) : ∀ i, (quadIndicesFrom i n).length = 6 * n := by
  induction n with
  | zero => intro i; rfl
  | succ n ih =>
      intro i
      simp only [quadIndicesFrom, List.length_cons, ih]
      omega

theorem quadIndicesFrom_drop_take (n : Nat) :
    ∀ i j, j < n →
      ((quadIndicesFrom i n).drop (6 * j)).take 6 =
        [4 * (i + j), 4 * (i + j) + 1, 4 * (i + j) + 2, 4 * (i + j) + 2,
         4 * (i + j) + 3, 4 * (i + j)] := by
  induction n with
  | zero => intro i j h; omega
  | succ n ih =>
      intro i j h
      cases j with
      | zero =>
          simp [quadIndicesFrom, List.take]
      | succ j =>
          have h6 : 6 * (j + 1) = 6 * j + 6 := by ring
          have hj : j < n := by omega
          have hstep :
              ((quadIndicesFrom i (n + 1)).drop (6 * (j + 1))).take 6 =
                ((quadIndicesFrom (i + 1) n).drop (6 * j)).take 6 := by
            simp [quadIndicesFrom, h6, List.drop_succ_cons]
          rw [hstep, ih (i + 1) j hj]
          have hij : i + 1 + j = i + (j + 1) := by omega
          rw [hij]

theorem quadIndicesFrom_mem_lt (n : Nat) :
    ∀ i, ∀ x ∈ quadIndicesFrom i n, x < 4 * (i + n) := by
  induction n with
  | zero => intro i x hx; simp [quadIndicesFrom] at hx
  | succ n ih =>
      intro i x hx
      simp only [quadIndicesFrom, List.mem_cons] at hx
      rcases hx with rfl | rfl | rfl | rfl | rfl | rfl | hx
      · omega
      · omega
      · omega
      · omega
      · omega
      · omega
      · have := ih (i + 1) x hx
        omega

/-! ## Claims -/

/-- C4: for every `quad_count` on which `generate_quad_indices` succeeds, the
returned vector has length `quad_count * 6`, and the six indices of quad `i`
(positions `6*i .. 6*i+6`) are `[4i, 4i+1, 4i+2, 4i+2, 4i+3, 4i]` in that
order. -/
theorem C4_generated_indices_pattern (quad_count : Nat) (l : List Nat)
    (h : generate_quad_indices quad_count = Except.ok l) :
    l.length = quad_count * 6 ∧
      ∀ i < quad_count,
        (l.drop (6 * i)).take 6 =
          [4 * i, 4 * i + 1, 4 * i + 2, 4 * i + 2, 4 * i + 3, 4 * i] := by
  unfold generate_quad_indices at h
  by_cases hc : quad_count * 6 < U32
  · rw [if_pos hc] at h
    have hl : l = quadIndicesFrom 0 quad_count := by
      cases h; rfl
    subst hl
    refine ⟨by rw [quadIndicesFrom_length]; ring, ?_⟩
    intro i hi
    have := quadIndicesFrom_drop_take quad_count 0 i hi
    simpa using this
  · rw [if_neg hc] at h
    cases h

/-- C4 witness: the pattern at `quad_count = 2`, quad `i = 1`. -/
theorem C4_generated_indices_pattern_witness :
    generate_quad_indices 2 = Except.ok [0, 1, 2, 2, 3, 0, 4, 5, 6, 6, 7, 4] ∧
      ([0, 1, 2, 2, 3, 0, 4, 5, 6, 6, 7, 4] : List Nat).length = 2 * 6 ∧
      (([0, 1, 2, 2, 3, 0, 4, 5, 6, 6, 7, 4] : List Nat).drop (6 * 1)).take 6 =
        [4 * 1, 4 * 1 + 1, 4 * 1 + 2, 4 * 1 + 2, 4 * 1 + 3, 4 * 1] :=
  ⟨by rfl,
   (C4_generated_indices_pattern 2 [0, 1, 2, 2, 3, 0, 4, 5, 6, 6, 7, 4] (by rfl)).1,
   (C4_generated_indices_pattern 2 [0, 1, 2, 2, 3, 0, 4, 5, 6, 6, 7, 4] (by rfl)).2
     1 (by decide)⟩

/-- C5: with half-pixel offset disabled, positive texture dimensions and flip
`None`, the UV computation yields `u = left/tex_w`, `v = bottom/tex_h`,
`u2 = right/tex_w`, `v2 = top/tex_h` (V inverted to a bottom-left-origin
texture-coordinate system). -/
theorem C5_uv_formula (texture_size : Vec2) (source : Rectangle)
    (hx : 0 < texture_size.x) (hy : 0 < texture_size.y) :
    calculate_uvs_with_source texture_size false source UvFlip.None =
      (⟨source.x / texture_size.x, (source.y + source.w) / texture_size.y⟩,
       ⟨(source.x + source.z) / texture_size.x, source.y / texture_size.y⟩) := by
  unfold calculate_uvs_with_source
  rw [if_pos ⟨hx, hy⟩]
  simp [get_texel_coord, flip_uvs]

/-- C5 witness: texture `(256,128)`, source `(0,0,32,32)`, half-pixel offset
disabled, flip `None`: top-left UV `(0, 1/4)`, bottom-right UV `(1/8, 0)`. -/
theorem C5_uv_formula_witness :
    calculate_uvs_with_source ⟨256, 128⟩ false ⟨0, 0, 32, 32⟩ UvFlip.None =
      (⟨0, 1/4⟩, ⟨1/8, 0⟩) := by
  have h := C5_uv_formula ⟨256, 128⟩ ⟨0, 0, 32, 32⟩ (by norm_num) (by norm_num)
  rw [h]
  norm_num

/-- C7: whenever either texture dimension is non-positive, the UV computation
returns the fixed fallback pair (top-left `(0,1)`, bottom-right `(1,0)`), for
every source rectangle, flip mode and half-pixel setting, and this is an
ordinary return value, not an error. -/
theorem C7_uv_degenerate_fallback (texture_size : Vec2) (use_half_pixel_offset : Bool)
    (source : Rectangle) (flip : UvFlip)
    (h : texture_size.x ≤ 0 ∨ texture_size.y ≤ 0) :
    calculate_uvs_with_source texture_size use_half_pixel_offset source flip =
      (⟨0, 1⟩, ⟨1, 0⟩) := by
  have hneg : ¬(texture_size.x > 0 ∧ texture_size.y > 0) := by
    rcases h with h | h
    · intro hc; exact absurd hc.1 (not_lt.mpr h)
    · intro hc; exact absurd hc.2 (not_lt.mpr h)
  unfold calculate_uvs_with_source
  rw [if_neg hneg]

/-- C7 witness: zero-width texture with half-pixel offset enabled and flip
`Both` still yields the fallback UV pair. -/
theorem C7_uv_degenerate_fallback_witness :
    calculate_uvs_with_source ⟨0, 128⟩ true ⟨1, 2, 3, 4⟩ UvFlip.Both =
      (⟨0, 1⟩, ⟨1, 0⟩) :=
  C7_uv_degenerate_fallback ⟨0, 128⟩ true ⟨1, 2, 3, 4⟩ UvFlip.Both (Or.inl (by norm_num))

/-- C8: applying `flip_uvs` twice with the same flip value restores the
original UV quadruple for every `UvFlip` value, and the horizontal swap and
the vertical swap commute (applying `Horizontal` then `Vertical` equals
applying `Vertical` then `Horizontal`). -/
theorem C8_flip_involution_and_commutation :
    (∀ (flip : UvFlip) (u v u2 v2 : ℚ),
      (let fl := flip_uvs flip u v u2 v2
       flip_uvs flip fl.1 fl.2.1 fl.2.2.1 fl.2.2.2) = (u, v, u2, v2)) ∧
    (∀ u v u2 v2 : ℚ,
      (let fh := flip_uvs UvFlip.Horizontal u v u2 v2
       flip_uvs UvFlip.Vertical fh.1 fh.2.1 fh.2.2.1 fh.2.2.2) =
      (let fv := flip_uvs UvFlip.Vertical u v u2 v2
       flip_uvs UvFlip.Horizontal fv.1 fv.2.1 fv.2.2.1 fv.2.2.2)) := by
  constructor
  · intro flip u v u2 v2
    cases flip <;> simp [flip_uvs]
  · intro u v u2 v2
    simp [flip_uvs]

/-- C9: `generate_quad_indices(quad_count)` reports the overflow error exactly
when `quad_count * 6` exceeds the `u32` range, and returns `Ok` otherwise. -/
theorem C9_generate_quad_indices_overflow (quad_count : Nat) (_h : quad_count < U32) :
    (generate_quad_indices quad_count = Except.error Error.QuadCountIsTooLarge ↔
      U32 ≤ quad_count * 6) ∧
    ((generate_quad_indices quad_count).isOk = true ↔ quad_count * 6 < U32) := by
  unfold generate_quad_indices
  by_cases hc : quad_count * 6 < U32
  · rw [if_pos hc]
    constructor
    · constructor
      · intro hcontra; cases hcontra
      · intro hle; omega
    · simp [Except.isOk, Except.toBool, hc]
  · rw [if_neg hc]
    constructor
    · constructor
      · intro _; omega
      · intro _; rfl
    · constructor
      · intro hcontra; simp [Except.isOk, Except.toBool] at hcontra
      · intro hlt; exact absurd hlt hc

/-- C9 witness: at `quad_count = 3`, generation succeeds and `3 * 6` is in
`u32` range. -/
theorem C9_generate_quad_indices_overflow_witness :
    ((generate_quad_indices 3).isOk = true ↔ 3 * 6 < U32) :=
  (C9_generate_quad_indices_overflow 3 (by norm_num [U32])).2

/-- C10: every index produced by a successful `generate_quad_indices` call is
strictly below `4 * quad_count`, the vertex count of an indexed builder with
that quad capacity. -/
theorem C10_generated_indices_in_range (quad_count : Nat) (l : List Nat)
    (h : generate_quad_indices quad_count = Except.ok l) :
    ∀ x ∈ l, x < 4 * quad_count := by
  unfold generate_quad_indices at h
  by_cases hc : quad_count * 6 < U32
  · rw [if_pos hc] at h
    have hl : l = quadIndicesFrom 0 quad_count := by cases h; rfl
    subst hl
    intro x hx
    have := quadIndicesFrom_mem_lt quad_count 0 x hx
    omega
  · rw [if_neg hc] at h
    cases h

/-- C10 witness: for capacity 2 the largest generated index, 7, is below
`4 * 2 = 8`. -/
theorem C10_generated_indices_in_range_witness :
    generate_quad_indices 2 = Except.ok [0, 1, 2, 2, 3, 0, 4, 5, 6, 6, 7, 4] ∧
      (7 : Nat) < 4 * 2 :=
  ⟨by rfl,
   C10_generated_indices_in_range 2 [0, 1, 2, 2, 3, 0, 4, 5, 6, 6, 7, 4]
     (by rfl) 7 (by decide)⟩

/-- A concrete `DetailedParams` value used by witnesses: position `(10,20)`,
white color, origin `(1,2)`, size `(4,6)`, unit scale, rotation 1 radian,
source `(0,0,32,32)`, no flip. -/
def detailedDemo : DetailedParams :=
  ⟨⟨10, 20⟩, ⟨1, 1, 1, 1⟩, ⟨1, 2⟩, ⟨4, 6⟩, ⟨1, 1⟩, 1, ⟨0, 0, 32, 32⟩, UvFlip.None⟩

/-! ## Binary32 rounding lemmas -/

theorem roundF32_zero : roundF32 0 = 0 := by
  unfold roundF32
  norm_num

theorem roundF32_neg (q : ℚ) : roundF32 (-q) = -roundF32 q := by
  rcases lt_trichotomy q 0 with hq | rfl | hq
  · unfold roundF32
    rw [if_neg (by linarith), if_neg (ne_of_lt hq), if_pos (by linarith),
      if_neg (not_lt.mpr (le_of_lt hq)), abs_neg]
    ring
  · norm_num [roundF32]
  · unfold roundF32
    rw [if_neg (by linarith), if_neg (ne_of_gt hq), if_pos hq,
      if_neg (by linarith), abs_neg]
    ring

theorem log2Floor_eq_of_one_le (q : ℚ) (n : Nat) (L : Nat) (h1 : 1 ≤ q)
    (hfl : ⌊q⌋ = (n : Int)) (hlog : Nat.log 2 n = L) :
    log2Floor q = (L : Int) := by
  unfold log2Floor
  rw [if_pos h1, hfl]
  simp [hlog]

theorem log2Floor_eq_of_lt_one (q : ℚ) (n : Nat) (K : Nat) (h1 : ¬ 1 ≤ q)
    (hcl : ⌈q⁻¹⌉ = (n : Int)) (hlog : Nat.clog 2 n = K) :
    log2Floor q = -(K : Int) := by
  unfold log2Floor
  rw [if_neg h1, hcl]
  simp [hlog]

theorem roundF32_eq_of (q r : ℚ) (E lo : Int)
    (hq : 0 < q)
    (hE : log2Floor q = E)
    (hlo : ⌊q / 2 ^ (E - 23)⌋ = lo)
    (hr : (if q / 2 ^ (E - 23) - lo < 1/2 then (lo : ℚ)
        else if 1/2 < q / 2 ^ (E - 23) - lo then (lo : ℚ) + 1
        else if lo % 2 = 0 then (lo : ℚ) else (lo : ℚ) + 1) * 2 ^ (E - 23) = r) :
    roundF32 q = r := by
  unfold roundF32
  rw [if_neg (ne_of_gt hq)]
  dsimp only
  rw [if_pos hq]
  simp only [abs_of_pos hq, hE, hlo, apply_ite (Int.cast : ℤ → ℚ), Int.cast_add,
    Int.cast_one, one_mul]
  exact hr

theorem roundF32_one : roundF32 1 = 1 := by
  refine roundF32_eq_of 1 1 0 8388608 (by norm_num) ?_ ?_ ?_
  · exact log2Floor_eq_of_one_le 1 1 0 (by norm_num) (by norm_num) (Nat.log_one_right 2)
  · rw [Int.floor_eq_iff]
    norm_num
  · norm_num

theorem roundF32_33554432 : roundF32 33554432 = 33554432 := by
  refine roundF32_eq_of 33554432 33554432 25 8388608 (by norm_num) ?_ ?_ ?_
  · exact log2Floor_eq_of_one_le 33554432 33554432 25 (by norm_num) (by norm_num)
      (Nat.log_eq_of_pow_le_of_lt_pow (by norm_num) (by norm_num))
  · rw [Int.floor_eq_iff]
    norm_num
  · norm_num

theorem roundF32_33554433 : roundF32 33554433 = 33554432 := by
  refine roundF32_eq_of 33554433 33554432 25 8388608 (by norm_num) ?_ ?_ ?_
  · exact log2Floor_eq_of_one_le 33554433 33554433 25 (by norm_num) (by norm_num)
      (Nat.log_eq_of_pow_le_of_lt_pow (by norm_num) (by norm_num))
  · rw [Int.floor_eq_iff]
    norm_num
  · norm_num

theorem roundF32_33554431 : roundF32 33554431 = 33554432 := by
  refine roundF32_eq_of 33554431 33554432 24 16777215 (by norm_num) ?_ ?_ ?_
  · exact log2Floor_eq_of_one_le 33554431 33554431 24 (by norm_num) (by norm_num)
      (Nat.log_eq_of_pow_le_of_lt_pow (by norm_num) (by norm_num))
  · rw [Int.floor_eq_iff]
    norm_num
  · norm_num

theorem roundF32_25165823 : roundF32 25165823 = 25165824 := by
  refine roundF32_eq_of 25165823 25165824 24 12582911 (by norm_num) ?_ ?_ ?_
  · exact log2Floor_eq_of_one_le 25165823 25165823 24 (by norm_num) (by norm_num)
      (Nat.log_eq_of_pow_le_of_lt_pow (by norm_num) (by norm_num))
  · rw [Int.floor_eq_iff]
    norm_num
  · norm_num

theorem roundF32_25165824 : roundF32 25165824 = 25165824 := by
  refine roundF32_eq_of 25165824 25165824 24 12582912 (by norm_num) ?_ ?_ ?_
  · exact log2Floor_eq_of_one_le 25165824 25165824 24 (by norm_num) (by norm_num)
      (Nat.log_eq_of_pow_le_of_lt_pow (by norm_num) (by norm_num))
  · rw [Int.floor_eq_iff]
    norm_num
  · norm_num

theorem roundF32_8388608 : roundF32 8388608 = 8388608 := by
  refine roundF32_eq_of 8388608 8388608 23 8388608 (by norm_num) ?_ ?_ ?_
  · exact log2Floor_eq_of_one_le 8388608 8388608 23 (by norm_num) (by norm_num)
      (Nat.log_eq_of_pow_le_of_lt_pow (by norm_num) (by norm_num))
  · rw [Int.floor_eq_iff]
    norm_num
  · norm_num

theorem roundF32_8388607 : roundF32 8388607 = 8388607 := by
  refine roundF32_eq_of 8388607 8388607 22 16777214 (by norm_num) ?_ ?_ ?_
  · exact log2Floor_eq_of_one_le 8388607 8388607 22 (by norm_num) (by norm_num)
      (Nat.log_eq_of_pow_le_of_lt_pow (by norm_num) (by norm_num))
  · rw [Int.floor_eq_iff]
    norm_num
  · norm_num

theorem roundF32_8388609 : roundF32 8388609 = 8388609 := by
  refine roundF32_eq_of 8388609 8388609 23 8388609 (by norm_num) ?_ ?_ ?_
  · exact log2Floor_eq_of_one_le 8388609 8388609 23 (by norm_num) (by norm_num)
      (Nat.log_eq_of_pow_le_of_lt_pow (by norm_num) (by norm_num))
  · rw [Int.floor_eq_iff]
    norm_num
  · norm_num

theorem roundF32_2pow43 : roundF32 8796093022208 = 8796093022208 := by
  refine roundF32_eq_of 8796093022208 8796093022208 43 8388608 (by norm_num) ?_ ?_ ?_
  · exact log2Floor_eq_of_one_le 8796093022208 8796093022208 43 (by norm_num) (by norm_num)
      (Nat.log_eq_of_pow_le_of_lt_pow (by norm_num) (by norm_num))
  · rw [Int.floor_eq_iff]
    norm_num
  · norm_num

theorem roundF32_milli : roundF32 (1/1000) = 8589935 / 2 ^ 33 := by
  refine roundF32_eq_of (1/1000) (8589935 / 2 ^ 33) (-10) 8589934 (by norm_num) ?_ ?_ ?_
  · refine log2Floor_eq_of_lt_one (1/1000) 1000 10 (by norm_num) (by norm_num) ?_
    exact le_antisymm ((Nat.le_pow_iff_clog_le (by norm_num)).mp (by norm_num))
      ((Nat.pow_lt_iff_lt_clog (by norm_num)).mp (by norm_num))
  · rw [Int.floor_eq_iff]
    norm_num
  · norm_num

/-- C6 counterexample: under binary32 rounding semantics the parallelogram
closure claimed for the fourth corner fails bit-exactly.  At `detailedF32Demo`
(rotation `2^-20`, trig oracle values `cosr = 1`, `sinr = 2^-20`) the rotated
corners before translation have `r1.y = 1`, `r2.y = 2^25`, `r3.y = 3*2^23`;
the source's `r4.y = fl(r3.y - fl(r2.y - r1.y))` is `-8388608` (the tie
`2^25 - 1` rounds to even, giving `2^25`), while the claimed
`fl(r1.y + fl(r3.y - r2.y))` is `-8388607`.  The discrepancy survives the
final translation: the translated fourth corner has `y = -8388609`, while the
closure of the translated corners gives `-8388608`. -/
theorem C6_f32_closure_counterexample :
    detailedF32Demo.rotation ≠ 0 ∧
    (detailedF32Demo.rotated_corners_f32 1 (1/1048576)).1.y = 1 ∧
    (detailedF32Demo.rotated_corners_f32 1 (1/1048576)).2.1.y = 33554432 ∧
    (detailedF32Demo.rotated_corners_f32 1 (1/1048576)).2.2.1.y = 25165824 ∧
    (detailedF32Demo.rotated_corners_f32 1 (1/1048576)).2.2.2.y = -8388608 ∧
    roundF32 ((detailedF32Demo.rotated_corners_f32 1 (1/1048576)).1.y +
      roundF32 ((detailedF32Demo.rotated_corners_f32 1 (1/1048576)).2.2.1.y -
        (detailedF32Demo.rotated_corners_f32 1 (1/1048576)).2.1.y)) = -8388607 ∧
    (detailedF32Demo.rotated_corners_f32 1 (1/1048576)).2.2.2.y ≠
      roundF32 ((detailedF32Demo.rotated_corners_f32 1 (1/1048576)).1.y +
        roundF32 ((detailedF32Demo.rotated_corners_f32 1 (1/1048576)).2.2.1.y -
          (detailedF32Demo.rotated_corners_f32 1 (1/1048576)).2.1.y)) ∧
    (detailedF32Demo.corner_points_f32 1 (1/1048576) ⟨256, 128⟩).2.2.2.y = -8388609 ∧
    (detailedF32Demo.corner_points_f32 1 (1/1048576) ⟨256, 128⟩).2.2.2.y ≠
      roundF32 ((detailedF32Demo.corner_points_f32 1 (1/1048576) ⟨256, 128⟩).1.y +
        roundF32 ((detailedF32Demo.corner_points_f32 1 (1/1048576) ⟨256, 128⟩).2.2.1.y -
          (detailedF32Demo.corner_points_f32 1 (1/1048576) ⟨256, 128⟩).2.1.y)) := by
  refine ⟨?_, ?_, ?_, ?_, ?_, ?_, ?_, ?_, ?_⟩ <;>
    norm_num [DetailedParams.corner_points_f32, DetailedParams.rotated_corners_f32,
      DetailedParams.local_corners_f32, detailedF32Demo, F32_0001, roundF32_milli,
      roundF32_zero, roundF32_neg, roundF32_one, roundF32_33554432, roundF32_33554433,
      roundF32_33554431, roundF32_25165823, roundF32_25165824, roundF32_8388608,
      roundF32_8388607, roundF32_8388609, roundF32_2pow43]

/-- C6 (amended): in `DetailedParams::corner_points`, for every nonzero
rotation the first three output corners are the standard 2D rotation matrix
(entries `cosr = cos rotation`, `sinr = sin rotation`) applied to the local
corner points, translated by `position + origin`, and the fourth corner is
reconstructed from the first three, before translation, with the source's own
associations: `r4.x = r1.x + (r3.x - r2.x)` and `r4.y = r3.y - (r2.y - r1.y)`
— a parallelogram closure that coincides with `c1 + (c3 - c2)` in exact
arithmetic but not always bit-exactly in `f32`. -/
theorem C6_amended_rotation_closure (p : DetailedParams) (cosr sinr : ℚ) (ts : Vec2)
    (h : p.rotation ≠ 0) :
    p.corner_points cosr sinr ts =
      (⟨cosr * p.local_corners.1.x - sinr * p.local_corners.1.y +
          (p.position.x + p.origin.x),
        sinr * p.local_corners.1.x + cosr * p.local_corners.1.y +
          (p.position.y + p.origin.y)⟩,
       ⟨cosr * p.local_corners.2.1.x - sinr * p.local_corners.2.1.y +
          (p.position.x + p.origin.x),
        sinr * p.local_corners.2.1.x + cosr * p.local_corners.2.1.y +
          (p.position.y + p.origin.y)⟩,
       ⟨cosr * p.local_corners.2.2.1.x - sinr * p.local_corners.2.2.1.y +
          (p.position.x + p.origin.x),
        sinr * p.local_corners.2.2.1.x + cosr * p.local_corners.2.2.1.y +
          (p.position.y + p.origin.y)⟩,
       ⟨(cosr * p.local_corners.1.x - sinr * p.local_corners.1.y) +
          ((cosr * p.local_corners.2.2.1.x - sinr * p.local_corners.2.2.1.y) -
            (cosr * p.local_corners.2.1.x - sinr * p.local_corners.2.1.y)) +
          (p.position.x + p.origin.x),
        (sinr * p.local_corners.2.2.1.x + cosr * p.local_corners.2.2.1.y) -
          ((sinr * p.local_corners.2.1.x + cosr * p.local_corners.2.1.y) -
            (sinr * p.local_corners.1.x + cosr * p.local_corners.1.y)) +
          (p.position.y + p.origin.y)⟩) := by
  simp only [DetailedParams.corner_points, if_neg h]

/-- C6 witness: the amended closure at a concrete detailed quad with rotation
1 radian (trig oracle values `3/5`, `4/5`). -/
theorem C6_amended_rotation_closure_witness :
    detailedDemo.corner_points (3/5) (4/5) ⟨256, 128⟩ =
      (⟨(3/5) * detailedDemo.local_corners.1.x - (4/5) * detailedDemo.local_corners.1.y +
          (detailedDemo.position.x + detailedDemo.origin.x),
        (4/5) * detailedDemo.local_corners.1.x + (3/5) * detailedDemo.local_corners.1.y +
          (detailedDemo.position.y + detailedDemo.origin.y)⟩,
       ⟨(3/5) * detailedDemo.local_corners.2.1.x - (4/5) * detailedDemo.local_corners.2.1.y +
          (detailedDemo.position.x + detailedDemo.origin.x),
        (4/5) * detailedDemo.local_corners.2.1.x + (3/5) * detailedDemo.local_corners.2.1.y +
          (detailedDemo.position.y + detailedDemo.origin.y)⟩,
       ⟨(3/5) * detailedDemo.local_corners.2.2.1.x - (4/5) * detailedDemo.local_corners.2.2.1.y +
          (detailedDemo.position.x + detailedDemo.origin.x),
        (4/5) * detailedDemo.local_corners.2.2.1.x + (3/5) * detailedDemo.local_corners.2.2.1.y +
          (detailedDemo.position.y + detailedDemo.origin.y)⟩,
       ⟨((3/5) * detailedDemo.local_corners.1.x - (4/5) * detailedDemo.local_corners.1.y) +
          (((3/5) * detailedDemo.local_corners.2.2.1.x -
              (4/5) * detailedDemo.local_corners.2.2.1.y) -
            ((3/5) * detailedDemo.local_corners.2.1.x -
              (4/5) * detailedDemo.local_corners.2.1.y)) +
          (detailedDemo.position.x + detailedDemo.origin.x),
        ((4/5) * detailedDemo.local_corners.2.2.1.x +
            (3/5) * detailedDemo.local_corners.2.2.1.y) -
          (((4/5) * detailedDemo.local_corners.2.1.x +
              (3/5) * detailedDemo.local_corners.2.1.y) -
            ((4/5) * detailedDemo.local_corners.1.x +
              (3/5) * detailedDemo.local_corners.1.y)) +
          (detailedDemo.position.y + detailedDemo.origin.y)⟩) :=
  C6_amended_rotation_closure detailedDemo (3/5) (4/5) ⟨256, 128⟩ (by decide)

/-! ## Builder lemmas -/

theorem set_vertices_length (p : QuadDrawParams) (texture_size : Vec2)
    (use_half_pixel_offset use_indices : Bool) (vertex_offset : Nat)
    (vertices : List PosUvColor) :
    (p.set_vertices texture_size use_half_pixel_offset use_indices vertex_offset
      vertices).length = vertices.length := by
  unfold QuadDrawParams.set_vertices
  cases use_indices <;> simp

theorem set_preserves_shape (b : MeshFromQuads) (quad_index : Nat) (p : QuadDrawParams) :
    (b.set quad_index p).2.vertices.length = b.vertices.length ∧
    (b.set quad_index p).2.quad_limit = b.quad_limit ∧
    (b.set quad_index p).2.vertices_per_quad = b.vertices_per_quad := by
  unfold MeshFromQuads.set
  by_cases h : (quad_index * b.vertices_per_quad % U32 + b.vertices_per_quad) % U32 ≤
      b.max_vertices
  · rw [if_pos h]
    exact ⟨set_vertices_length .., rfl, rfl⟩
  · rw [if_neg h]
    exact ⟨rfl, rfl, rfl⟩

theorem clear_preserves_shape (b : MeshFromQuads) :
    b.clear.vertices.length = b.vertices.length ∧
    b.clear.quad_limit = b.quad_limit ∧
    b.clear.vertices_per_quad = b.vertices_per_quad := by
  unfold MeshFromQuads.clear
  simp

theorem applyOps_preserves_shape (ops : List Op) :
    ∀ b : MeshFromQuads,
      (applyOps b ops).vertices.length = b.vertices.length ∧
      (applyOps b ops).quad_limit = b.quad_limit ∧
      (applyOps b ops).vertices_per_quad = b.vertices_per_quad := by
  induction ops with
  | nil => intro b; exact ⟨rfl, rfl, rfl⟩
  | cons op rest ih =>
      intro b
      cases op with
      | set quad_index draw_params =>
          have h1 := set_preserves_shape b quad_index draw_params
          have h2 := ih (b.set quad_index draw_params).2
          simp only [applyOps]
          exact ⟨h2.1.trans h1.1, h2.2.1.trans h1.2.1, h2.2.2.trans h1.2.2⟩
      | clear =>
          have h1 := clear_preserves_shape b
          have h2 := ih b.clear
          simp only [applyOps]
          exact ⟨h2.1.trans h1.1, h2.2.1.trans h1.2.1, h2.2.2.trans h1.2.2⟩

theorem vertices_per_quad_pos (use_indices : Bool) : 0 < vertices_per_quad use_indices := by
  cases use_indices <;> norm_num [vertices_per_quad]

theorem create_ok_shape (texture_size : Vec2) (use_half_pixel_offset : Bool)
    (quad_limit : Nat) (use_indices : Bool) (b : MeshFromQuads)
    (h : MeshFromQuads.create texture_size use_half_pixel_offset quad_limit use_indices =
      Except.ok b) :
    b.vertices = List.replicate (quad_limit * vertices_per_quad use_indices) zeroVertex ∧
    b.quad_limit = quad_limit ∧
    b.vertices_per_quad = vertices_per_quad use_indices := by
  unfold MeshFromQuads.create at h
  split at h
  · split at h
    · cases h
    · unfold total_vertices_in_quads at h
      split at h
      · cases h
      · next mv heq2 =>
          cases h
          have hmv : mv = quad_limit * vertices_per_quad use_indices := by
            split at heq2
            · cases heq2; rfl
            · cases heq2
          subst hmv
          exact ⟨rfl, rfl, rfl⟩
  · cases h

theorem ftvi_ok_shape (texture_size : Vec2) (use_half_pixel_offset : Bool)
    (vertices : List PosUvColor) (indices : Option (List Nat)) (b : MeshFromQuads)
    (h : MeshFromQuads.from_texture_vertices_indices texture_size use_half_pixel_offset
      vertices indices = Except.ok b) :
    b.vertices = vertices ∧
    b.quad_limit = vertices.length / vertices_per_quad indices.isSome ∧
    b.vertices_per_quad = vertices_per_quad indices.isSome := by
  unfold MeshFromQuads.from_texture_vertices_indices at h
  split at h
  · split at h
    · cases h
      exact ⟨rfl, rfl, rfl⟩
    · cases h
  · cases h

/-- A builder produced by one of the public constructors: `new` and
`new_without_indices` are the two instantiations of `create`, and
`from_texture_vertices_indices` is the third entry point. -/
def FromPublicConstructor (b : MeshFromQuads) : Prop :=
  (∃ texture_size use_half_pixel_offset quad_limit use_indices,
    MeshFromQuads.create texture_size use_half_pixel_offset quad_limit use_indices =
      Except.ok b) ∨
  (∃ texture_size use_half_pixel_offset vertices indices,
    MeshFromQuads.from_texture_vertices_indices texture_size use_half_pixel_offset
      vertices indices = Except.ok b)

/-- The builder produced by `MeshFromQuads::new([256,128], false, 4)`:
quad capacity 4, indexed, `max_vertices = 16`. -/
def capacity4Builder : MeshFromQuads :=
  { texture_size := ⟨256, 128⟩
    use_half_pixel_offset := false
    indices := some (quadIndicesFrom 0 4)
    vertices := List.replicate 16 zeroVertex
    quad_limit := 4
    use_indices := true
    vertices_per_quad := 4
    max_vertices := 16 }

/-- A concrete `PosColorSource`: position `(0,0)`, white color, source
`(0,0,32,32)`, no flip. -/
def posColorDemo : PosColorSource :=
  ⟨⟨0, 0⟩, ⟨1, 1, 1, 1⟩, ⟨0, 0, 32, 32⟩, UvFlip.None⟩

/-- C1: evaluation of `MeshFromQuads::set` at the failing input.  On the
builder created by `new([256,128], false, 4)` (so `quad_limit = 4`,
`max_vertices = 16`), the in-range calls behave as the claim states
(`set(3)` succeeds, `set(4)` fails leaving the buffer untouched), but at
`quad_index = 2^30` — far outside the range `[0, 4)` — the `u32` product
`quad_index * vertices_per_quad` wraps to 0, the bounds check passes, and
`set` returns `true` after overwriting quad slot 0, contradicting both the
claim and the function's own documentation ("Returns true if the given quad
index was in vertices range"). -/
theorem C1_set_wraparound_eval :
    MeshFromQuads.new ⟨256, 128⟩ false 4 = Except.ok capacity4Builder ∧
    (capacity4Builder.set 3 posColorDemo.toQuadDrawParams).1 = true ∧
    (capacity4Builder.set 4 posColorDemo.toQuadDrawParams).1 = false ∧
    (capacity4Builder.set 4 posColorDemo.toQuadDrawParams).2.vertices =
      capacity4Builder.vertices ∧
    (capacity4Builder.set (2 ^ 30) posColorDemo.toQuadDrawParams).1 = true ∧
    (capacity4Builder.set (2 ^ 30) posColorDemo.toQuadDrawParams).2.vertices ≠
      capacity4Builder.vertices := by
  refine ⟨by rfl, by rfl, by rfl, by rfl, by rfl, ?_⟩
  intro hEq
  have h1 : ((capacity4Builder.set (2 ^ 30) posColorDemo.toQuadDrawParams).2.vertices.get?
      0).map (fun v => v.color.w) = some 1 := rfl
  rw [hEq] at h1
  have h2 : (capacity4Builder.vertices.get? 0).map (fun v => v.color.w) = some 0 := rfl
  rw [h2] at h1
  exact absurd (Option.some.inj h1) (by norm_num)

/-- C2 counterexample: `from_texture_vertices_indices` accepts a 5-vertex
buffer with no indices (`vertices_per_quad = 6`), producing a builder whose
vertex-buffer length (5) differs from `quad_limit * vertices_per_quad`
(`0 * 6 = 0`). -/
theorem C2_counterexample :
    MeshFromQuads.from_texture_vertices_indices ⟨256, 128⟩ false
        (List.replicate 5 zeroVertex) Option.none =
      Except.ok
        { texture_size := ⟨256, 128⟩
          use_half_pixel_offset := false
          indices := Option.none
          vertices := List.replicate 5 zeroVertex
          quad_limit := 0
          use_indices := false
          vertices_per_quad := 6
          max_vertices := 5 } ∧
    (List.replicate 5 zeroVertex : List PosUvColor).length = 5 ∧
    (0 : Nat) * 6 ≠ 5 := by
  refine ⟨by rfl, by rfl, by decide⟩

/-- C2 (amended): for every builder obtained from a public constructor and
any sequence of `set`/`clear` operations, the vertex-buffer length,
`quad_limit` and `vertices_per_quad` never change, and
`quad_limit = vertex_buffer.len() / vertices_per_quad` (integer division).
For builders from `new` / `new_without_indices` (the `create` path) the
stronger equality `vertex_buffer.len() = quad_limit * vertices_per_quad`
holds throughout; `from_texture_vertices_indices` only guarantees it when
`vertices_per_quad` divides the supplied buffer length. -/
theorem C2_amended_buffer_length_invariant (b : MeshFromQuads) (ops : List Op)
    (h : FromPublicConstructor b) :
    (applyOps b ops).vertices.length = b.vertices.length ∧
    (applyOps b ops).quad_limit = b.quad_limit ∧
    (applyOps b ops).vertices_per_quad = b.vertices_per_quad ∧
    b.quad_limit = b.vertices.length / b.vertices_per_quad ∧
    ((∃ texture_size use_half_pixel_offset quad_limit use_indices,
        MeshFromQuads.create texture_size use_half_pixel_offset quad_limit use_indices =
          Except.ok b) →
      (applyOps b ops).vertices.length =
        (applyOps b ops).quad_limit * (applyOps b ops).vertices_per_quad) := by
  obtain ⟨hlen, hql, hvpq⟩ := applyOps_preserves_shape ops b
  refine ⟨hlen, hql, hvpq, ?_, ?_⟩
  · rcases h with ⟨ts, half, ql, ui, hc⟩ | ⟨ts, half, vs, ind, hc⟩
    · obtain ⟨hv, hq, hp⟩ := create_ok_shape ts half ql ui b hc
      rw [hv, hq, hp, List.length_replicate,
        Nat.mul_div_cancel ql (vertices_per_quad_pos ui)]
    · obtain ⟨hv, hq, hp⟩ := ftvi_ok_shape ts half vs ind b hc
      rw [hq, hp, hv]
  · rintro ⟨ts, half, ql, ui, hc⟩
    obtain ⟨hv, hq, hp⟩ := create_ok_shape ts half ql ui b hc
    rw [hlen, hql, hvpq, hv, hq, hp, List.length_replicate]

/-- C2 witness: the invariant instantiated on the capacity-4 builder after a
`set` and a `clear`. -/
theorem C2_amended_buffer_length_invariant_witness :
    (applyOps capacity4Builder
        [Op.set 0 posColorDemo.toQuadDrawParams, Op.clear]).vertices.length =
      capacity4Builder.vertices.length ∧
    (applyOps capacity4Builder
        [Op.set 0 posColorDemo.toQuadDrawParams, Op.clear]).quad_limit =
      capacity4Builder.quad_limit ∧
    (applyOps capacity4Builder
        [Op.set 0 posColorDemo.toQuadDrawParams, Op.clear]).vertices_per_quad =
      capacity4Builder.vertices_per_quad ∧
    capacity4Builder.quad_limit =
      capacity4Builder.vertices.length / capacity4Builder.vertices_per_quad ∧
    ((∃ texture_size use_half_pixel_offset quad_limit use_indices,
        MeshFromQuads.create texture_size use_half_pixel_offset quad_limit use_indices =
          Except.ok capacity4Builder) →
      (applyOps capacity4Builder
          [Op.set 0 posColorDemo.toQuadDrawParams, Op.clear]).vertices.length =
        (applyOps capacity4Builder
            [Op.set 0 posColorDemo.toQuadDrawParams, Op.clear]).quad_limit *
          (applyOps capacity4Builder
              [Op.set 0 posColorDemo.toQuadDrawParams, Op.clear]).vertices_per_quad) :=
  C2_amended_buffer_length_invariant capacity4Builder
    [Op.set 0 posColorDemo.toQuadDrawParams, Op.clear]
    (Or.inl ⟨⟨256, 128⟩, false, 4, true, by rfl⟩)

/-- C3 counterexample: with quad capacity `2^23` and indices (4 vertices per
quad, 32-byte vertices) the spec's estimated buffer size is
`8388608 * 4 * 32 = 2^23 * 4 * 32 = 1024 MB > 512 MB`, yet both `MeshFromQuads::create` (which
has no byte ceiling at all) and the legacy `MeshBuilder::create` (whose
estimate multiplies by the size of a single vertex per quad, not by
`vertices_per_quad`) construct the builder successfully. -/
theorem C3_counterexample :
    512 * 2 ^ 20 < 8388608 * vertices_per_quad true * 32 ∧
    (MeshFromQuads.create ⟨1, 1⟩ false 8388608 true).isOk = true ∧
    (legacy_create 1 1 8388608 true).isOk = true := by
  have hgen : generate_quad_indices 8388608 = Except.ok (quadIndicesFrom 0 8388608) := by
    unfold generate_quad_indices
    rw [if_pos (by norm_num [U32])]
  have htot : total_vertices_in_quads 8388608 true =
      Except.ok (8388608 * vertices_per_quad true) := by
    unfold total_vertices_in_quads
    rw [if_pos (by norm_num [U32, vertices_per_quad])]
  refine ⟨by norm_num [vertices_per_quad], ?_, ?_⟩
  · unfold MeshFromQuads.create
    rw [if_pos (by norm_num)]
    simp [hgen, htot, Except.isOk, Except.toBool, Except.map]
  · unfold legacy_create
    rw [if_neg (by norm_num), if_neg (by norm_num [LEGACY_VERTEX_SIZE_BYTES,
      MAX_VERTEX_BUFFER_SIZE_MBYTES])]
    simp [hgen, htot, Except.isOk, Except.toBool, Except.map]

/-- C3 (amended): `MeshFromQuads::create` applies no byte-size ceiling at
all — for every texture size passing validation and every quad capacity
passing the `u32` overflow checks (`quad_limit * 6 < 2^32` suffices for both
layouts), construction succeeds regardless of the estimated vertex-buffer
byte size.  (Only the legacy `MeshBuilder::create` has a 512 MB ceiling, and
its estimate is `quad_limit * sizeof(Vertex)` — one vertex per quad.) -/
theorem C3_amended_no_byte_ceiling (texture_size : Vec2) (use_half_pixel_offset : Bool)
    (quad_limit : Nat) (use_indices : Bool)
    (hx : 1 ≤ texture_size.x) (hy : 1 ≤ texture_size.y) (hql : quad_limit * 6 < U32) :
    (MeshFromQuads.create texture_size use_half_pixel_offset quad_limit
      use_indices).isOk = true := by
  have hgen : generate_quad_indices quad_limit = Except.ok (quadIndicesFrom 0 quad_limit) := by
    unfold generate_quad_indices
    rw [if_pos (by omega)]
  have hvpq6 : vertices_per_quad use_indices ≤ 6 := by
    cases use_indices <;> norm_num [vertices_per_quad]
  have htot : total_vertices_in_quads quad_limit use_indices =
      Except.ok (quad_limit * vertices_per_quad use_indices) := by
    unfold total_vertices_in_quads
    rw [if_pos (lt_of_le_of_lt (Nat.mul_le_mul_left quad_limit hvpq6) hql)]
  unfold MeshFromQuads.create
  rw [if_pos ⟨hx, hy⟩]
  cases use_indices <;>
    simp [hgen, htot, Except.isOk, Except.toBool, Except.map]

/-- C3 witness: a small indexed builder constructs successfully. -/
theorem C3_amended_no_byte_ceiling_witness :
    (MeshFromQuads.create ⟨2, 2⟩ true 1 true).isOk = true :=
  C3_amended_no_byte_ceiling ⟨2, 2⟩ true 1 true (by norm_num) (by norm_num)
    (by norm_num [U32])

end Stabilkon
